import Mathlib

/-!
Formal model of the tenant-scoped authentication and authorization subsystem of
the `arvo` repository: the JWT/password codec (`src/app/core/auth/backend.py`),
the token schemas (`src/app/core/auth/schemas.py`), the request authentication
dependency chain (`src/app/core/auth/dependencies.py`, both the development tree
and the generated starter template), the authentication service
(`src/app/core/auth/service.py`), the user/token repositories
(`src/app/modules/users/repos.py`), the permission evaluator
(`src/app/core/permissions/checker.py` with the starter template's
`Role.has_permission`), the OAuth state store
(`src/app/core/cache/oauth_state.py`, `src/app/core/cache/redis.py`) and the
OAuth callback user resolution (`src/app/core/auth/oauth_routes.py`).

Python's dynamic failure modes are made explicit: a function that can raise
returns an `Except`-shaped result, and the distinct exception classes that the
source code catches (`jose.JWTError`, `ValueError`) are separated from the ones
it does not (`TypeError`).
-/

/-- The Python exception classes relevant to this subsystem.  `jose.JWTError`
covers signature, algorithm, expiry and registered-claim failures raised by
`jwt.decode`; `valueError` covers `uuid.UUID` parse failures and passlib's
`UnknownHashError` (a `ValueError` subclass) raised by
`CryptContext.verify` on an unidentifiable hash; `typeError` covers calling a
function with the wrong arity. -/
inductive PyExn
  | jwtError
  | valueError
  | typeError
deriving DecidableEq

/-- The exception classes caught by the `except (JWTError, ValueError)` handler
in `decode_token` (backend.py lines 181-182). -/
def pyCaught (e : PyExn) : Bool :=
  match e with
  | .jwtError => true
  | .valueError => true
  | .typeError => false

/-- Model of `str(uuid)`: an injective, never-empty string encoding of an
abstract UUID value (UUIDs themselves are modelled as `Nat`).  The concrete
hex-and-dash text format of RFC 4122 is irrelevant to every property studied
here; what the source relies on is that `str` is injective, never produces the
empty string, and that `uuid.UUID` inverts it, rejecting every other input. -/
def uuidStr (n : Nat) : String := String.mk (List.replicate (n + 1) 'u')

/-- Model of `uuid.UUID(s)`: the partial inverse of `uuidStr`.  `none` models
the `ValueError` that `uuid.UUID` raises on a string that is not a serialized
UUID. -/
def uuidParse (s : String) : Option Nat :=
  if s.data ≠ [] ∧ s.data.all (fun c => c = 'u') then some (s.data.length - 1) else none

theorem uuidParse_uuidStr (n : Nat) : uuidParse (uuidStr n) = some n := by
  simp [uuidParse, uuidStr, List.all_eq_true]

theorem uuidStr_ne_empty (n : Nat) : uuidStr n ≠ "" := by
  simp [uuidStr]
  intro h
  have := congrArg (fun s => s.data.length) h
  simp at this

/-- The JWT payload, as built by `create_access_token` and read back by
`decode_token`.  Claim values carry their expected JSON types (the only
producers in the system store strings under `sub`, `tenant_id`, `type` and
`jti`, and numbers under `exp` and `iat`); a claim that is absent from the
payload is `none`. -/
structure Claims where
  sub : Option String
  tenant_id : Option String
  exp : Option Int
  type : Option String
  iat : Option Int
  jti : Option String
deriving DecidableEq

/-- An encoded token string, partitioned by what `jwt.decode` with the server's
`settings.secret_key` and `settings.jwt_algorithm` makes of it: `signed c` is a
well-formed JWT correctly signed with the server secret and algorithm, carrying
payload `c`; `malformed s` is any other string (syntactically broken, wrong
signature, wrong algorithm). -/
inductive Jwt
  | malformed (s : String)
  | signed (claims : Claims)
deriving DecidableEq

/-- Model of `settings.access_token_expire_minutes` default (config.py line 75). -/
def settings_access_token_expire_minutes : Int := 15

/-- Model of `settings.refresh_token_expire_days` default (config.py line 76). -/
def settings_refresh_token_expire_days : Int := 7

/-- Model of `jose.jwt.decode(token, settings.secret_key,
algorithms=[settings.jwt_algorithm])`.  A malformed or wrongly-signed string
raises `JWTError`; a signed token whose `exp` claim is in the past raises
`ExpiredSignatureError` (a `JWTError`); a signed token without an `exp` claim
is not expiry-checked.  Time is an explicit `now` parameter in seconds. -/
def jose_decode (now : Int) (token : Jwt) : Except PyExn Claims :=
  match token with
  | .malformed _ => .error .jwtError
  | .signed c =>
    match c.exp with
    | some e => if e < now then .error .jwtError else .ok c
    | none => .ok c

/-- Model of `TokenData` as declared in the development tree's
`src/app/core/auth/schemas.py` (lines 9-22): fields `user_id`, `tenant_id`,
`exp` and `type` only.  The schema declares no `jti` field, so the
`jti=jti` keyword argument that `decode_token` passes to the constructor is
silently dropped by pydantic (whose default `extra` behaviour ignores unknown
fields). -/
structure TokenData where
  user_id : Nat
  tenant_id : Nat
  exp : Int
  type : String
deriving DecidableEq

/-- The body of the `try:` block of `decode_token` (backend.py lines 157-179),
with every potentially-raising step explicit.  `Except.ok none` is the explicit
`return None` on a falsy `sub`/`tenant_id` or missing `exp`; `Except.error`
is a raised exception.  The local `jti` variable of the source is extracted
from the payload but then discarded, because the `TokenData` schema has no
such field (see `TokenData`). -/
def decode_token_body (now : Int) (token : Jwt) : Except PyExn (Option TokenData) :=
  match jose_decode now token with
  | .error e => .error e
  | .ok payload =>
    match payload.sub, payload.tenant_id, payload.exp with
    | some su, some ti, some e =>
      if su = "" ∨ ti = "" then
        .ok none
      else
        match uuidParse su, uuidParse ti with
        | some uid, some tid =>
          .ok (some { user_id := uid, tenant_id := tid, exp := e,
                      type := payload.type.getD "access" })
        | _, _ => .error .valueError
    | _, _, _ => .ok none

/-- Model of `decode_token` together with its `except (JWTError, ValueError)` handler: a caught
exception becomes `None`; any other exception would propagate to the caller. -/
def decode_token_py (now : Int) (token : Jwt) : Except PyExn (Option TokenData) :=
  match decode_token_body now token with
  | .ok r => .ok r
  | .error e => if pyCaught e then .ok none else .error e

/-- Model of `decode_token` as the callers see it: it never raises
(`decode_token_py` is provably total, see `decode_token_py_total`), so its
value collapses to `TokenData | None`. -/
def decode_token (now : Int) (token : Jwt) : Option TokenData :=
  match decode_token_py now token with
  | .ok r => r
  | .error _ => none

theorem decode_token_body_error_caught (now : Int) (token : Jwt) (e : PyExn)
    (h : decode_token_body now token = .error e) : pyCaught e = true := by
  cases token with
  | malformed s =>
    simp [decode_token_body, jose_decode] at h
    simp [← h, pyCaught]
  | signed c =>
    obtain ⟨sub, tid, ex, ty, ia, jt⟩ := c
    rcases ex with _ | ev
    · rcases sub with _ | su <;> rcases tid with _ | ti <;>
        simp [decode_token_body, jose_decode] at h
    · by_cases hlt : ev < now
      · simp [decode_token_body, jose_decode, hlt] at h
        simp [← h, pyCaught]
      · rcases sub with _ | su <;> rcases tid with _ | ti <;>
          simp [decode_token_body, jose_decode, hlt] at h
        by_cases hemp : su = "" ∨ ti = ""
        · simp [hemp] at h
        · simp [hemp] at h
          rcases hp : uuidParse su with _ | uid <;>
            rcases hq : uuidParse ti with _ | tiv <;> simp [hp, hq] at h <;>
            simp [← h, pyCaught]

theorem decode_token_py_total (now : Int) (token : Jwt) :
    decode_token_py now token = .ok (decode_token now token) := by
  cases hb : decode_token_body now token with
  | ok r => simp [decode_token_py, decode_token, hb]
  | error e =>
    have hc := decode_token_body_error_caught now token e hb
    simp [decode_token_py, decode_token, hb, hc]

/-- Model of `create_access_token` (backend.py lines 68-108), with `additional_claims`
left at its `None` default.  `expires_delta` is the optional override in
seconds; the fresh random `jti` produced by `secrets.token_urlsafe` is an
explicit parameter. -/
def create_access_token (user_id tenant_id : Nat) (now : Int)
    (expires_delta : Option Int) (jti : String) : Jwt :=
  let expire : Int :=
    match expires_delta with
    | some d => now + d
    | none => now + settings_access_token_expire_minutes * 60
  .signed { sub := some (uuidStr user_id), tenant_id := some (uuidStr tenant_id),
            exp := some expire, type := some "access", iat := some now,
            jti := some jti }

/-- A stored password hash: either a well-formed bcrypt hash of some password
(the only kind `hash_password` produces; the salt makes repeated hashing
distinct) or any other string, which passlib cannot identify. -/
inductive HashStr
  | bcrypt (pw : String) (salt : Nat)
  | malformed (s : String)
deriving DecidableEq

/-- Model of `hash_password` (backend.py lines 38-47): bcrypt with a random salt. -/
def hash_password (password : String) (salt : Nat) : HashStr := .bcrypt password salt

/-- Model of passlib's `CryptContext.verify`: a boolean on a well-formed bcrypt
hash, and a raised `UnknownHashError` (a `ValueError` subclass) on a hash
string it cannot identify. -/
def pwd_context_verify (plain : String) (hashed : HashStr) : Except PyExn Bool :=
  match hashed with
  | .bcrypt pw _ => .ok (plain = pw)
  | .malformed _ => .error .valueError

/-- Model of `verify_password` (backend.py lines 50-60): a bare delegation to
`pwd_context.verify`, with no exception handling of its own. -/
def verify_password (plain_password : String) (hashed_password : HashStr) :
    Except PyExn Bool :=
  pwd_context_verify plain_password hashed_password

/-- Model of `hash_token` (backend.py lines 133-145).  SHA-256 is modelled as an
injective tagging of the input (the standard collision-free idealization); the
source stores and compares tokens only through this function. -/
def hash_token (token : String) : String := "sha256:" ++ token

/-- A row of the `users` table (`src/app/modules/users/models.py`): ids are
abstract `Nat` UUID values. -/
structure User where
  id : Nat
  tenant_id : Nat
  email : String
  password_hash : Option HashStr
  full_name : String
  is_active : Bool
  is_superuser : Bool
  oauth_provider : Option String
  oauth_id : Option String
deriving DecidableEq

/-- A row of the `tenants` table (`src/app/modules/tenants/models.py`). -/
structure Tenant where
  id : Nat
  name : String
  slug : String
deriving DecidableEq

/-- A row of the `refresh_tokens` table: the stored SHA-256 hash of the opaque
token, its expiry and the revoked flag. -/
structure RefreshRecord where
  id : Nat
  user_id : Nat
  token_hash : String
  expires_at : Int
  revoked : Bool
  user_agent : Option String
  ip_address : Option String
deriving DecidableEq

/-- A global `(resource, action)` permission pair
(starter template `src/core/permissions/models.py`). -/
structure Permission where
  resource : String
  action : String
deriving DecidableEq

/-- A tenant-scoped role with its permissions eagerly attached
(starter template `src/core/permissions/models.py`). -/
structure Role where
  id : Nat
  tenant_id : Nat
  name : String
  permissions : List Permission
deriving DecidableEq

/-- A row of the `user_roles` junction table. -/
structure UserRole where
  user_id : Nat
  role_id : Nat
deriving DecidableEq

/-- The relational store as seen by this subsystem: users, tenants, refresh
token records, the access-token revocation list (the `jti` column of the
`revoked_tokens` table) and the RBAC tables. -/
structure Db where
  users : List User
  tenants : List Tenant
  refresh_tokens : List RefreshRecord
  revoked_jtis : List String
  roles : List Role
  user_roles : List UserRole
deriving DecidableEq

namespace UserRepository

/-- Model of `UserRepository.get_by_id` (repos.py lines 42-57): tenant-scoped lookup;
both the user id and the tenant id must match. -/
def get_by_id (db : Db) (user_id tenant_id : Nat) : Option User :=
  db.users.find? (fun u => u.id = user_id ∧ u.tenant_id = tenant_id)

/-- Model of `UserRepository.get_by_id_system` (repos.py lines 59-74): lookup without
tenant filtering. -/
def get_by_id_system (db : Db) (user_id : Nat) : Option User :=
  db.users.find? (fun u => u.id = user_id)

/-- Model of `UserRepository.get_by_email_system` (repos.py lines 93-108). -/
def get_by_email_system (db : Db) (email : String) : Option User :=
  db.users.find? (fun u => u.email = email)

/-- Model of `UserRepository.get_by_oauth_system` (repos.py lines 129-147): lookup by
`(oauth_provider, oauth_id)` without tenant filtering. -/
def get_by_oauth_system (db : Db) (provider oauth_id : String) : Option User :=
  db.users.find? (fun u => u.oauth_provider = some provider ∧ u.oauth_id = some oauth_id)

end UserRepository

namespace RefreshTokenRepository

/-- Model of `RefreshTokenRepository.get_by_hash` (repos.py lines 245-259): only a
record that is not revoked is returned. -/
def get_by_hash (db : Db) (token_hash : String) : Option RefreshRecord :=
  db.refresh_tokens.find? (fun r => r.token_hash = token_hash ∧ r.revoked = false)

/-- Model of `RefreshTokenRepository.revoke` (repos.py lines 261-268): sets the revoked
flag of the given record (identified by primary key). -/
def revoke (db : Db) (record_id : Nat) : Db :=
  { db with refresh_tokens :=
      db.refresh_tokens.map fun r =>
        if r.id = record_id then { r with revoked := true } else r }

/-- Model of `RefreshTokenRepository.create` (repos.py lines 231-243). -/
def create (db : Db) (record : RefreshRecord) : Db :=
  { db with refresh_tokens := db.refresh_tokens ++ [record] }

end RefreshTokenRepository

namespace RevokedTokenRepository

/-- Model of `RevokedTokenRepository.is_revoked` (repos.py lines 321-332): true iff the
`jti` has a row in the revocation table. -/
def is_revoked (db : Db) (jti : String) : Bool :=
  db.revoked_jtis.contains jti

end RevokedTokenRepository

/-- The error taxonomy of `src/app/core/errors`: the HTTP-shaped application
error kinds raised by this subsystem. -/
inductive ErrKind
  | unauthorized
  | forbidden
  | conflict
  | badRequest
  | notFound
deriving DecidableEq

/-- The observable outcome of a Python function in this subsystem: a returned
value, a raised application error (kind, human message, machine error code), or
a raised plain Python exception (which the HTTP layer surfaces as a 500). -/
inductive PyResult (α : Type)
  | ok (a : α)
  | appError (kind : ErrKind) (message : String) (error_code : String)
  | exn (e : PyExn)
deriving DecidableEq

/-- Model of `get_token_data` of the development tree
(`src/app/core/auth/dependencies.py` lines 25-58).  `credentials` is the
bearer credential extracted from the Authorization header (`none` when the
header is missing).  Note that this version performs no revocation check: the
decoded data is returned as soon as its type is `access`, and the function
does not even receive a database session. -/
def get_token_data (now : Int) (credentials : Option Jwt) : PyResult TokenData :=
  match credentials with
  | none => .appError .unauthorized "Missing authentication token" "missing_token"
  | some cred =>
    match decode_token now cred with
    | none => .appError .unauthorized "Invalid or expired token" "invalid_token"
    | some token_data =>
      if token_data.type ≠ "access" then
        .appError .unauthorized "Invalid token type" "invalid_token_type"
      else
        .ok token_data

/-- Model of `get_current_user` of the development tree
(`src/app/core/auth/dependencies.py` lines 61-94).  Its body executes
`user = await repo.get_by_id(token_data.user_id)` (line 80), passing a single
argument to `UserRepository.get_by_id`, whose signature
`get_by_id(self, user_id: UUID, tenant_id: UUID)` (repos.py line 42) has two
required parameters.  In Python this call raises
`TypeError: get_by_id() missing 1 required positional argument: "tenant_id"`
before any query is executed, so the function's outcome is that exception for
every token, and none of the subsequent checks is reachable. -/
def get_current_user (db : Db) (token_data : TokenData) : PyResult User :=
  .exn .typeError

namespace Starter

/-- Modelled from the spec: the starter template's `TokenData`
(`templates/starter/src/app/core/auth/schemas.py` is not present under `src/`;
only its importers and tests are).  Per the spec, `decode_token` extracts
"subject, tenant, expiry, type, jti", and the template's tests construct
`TokenData` with a `jti` keyword, so this schema carries an optional `jti`
field in addition to the four fields of the development tree's schema. -/
structure TokenData where
  user_id : Nat
  tenant_id : Nat
  exp : Int
  type : String
  jti : Option String
deriving DecidableEq

/-- Modelled from the spec: the starter template's `decode_token`
(`templates/starter/src/app/core/auth/backend.py` is not present under
`src/`).  Per the spec it behaves as the development tree's `decode_token`
but the decoded data carries the payload's `jti`. -/
def decode_token (now : Int) (token : Jwt) : Option Starter.TokenData :=
  match jose_decode now token with
  | .error _ => none
  | .ok payload =>
    match payload.sub, payload.tenant_id, payload.exp with
    | some su, some ti, some e =>
      if su = "" ∨ ti = "" then none
      else
        match uuidParse su, uuidParse ti with
        | some uid, some tid =>
          some { user_id := uid, tenant_id := tid, exp := e,
                 type := payload.type.getD "access", jti := payload.jti }
        | _, _ => none
    | _, _, _ => none

/-- Model of `get_token_data` of the starter template
(`templates/starter/src/app/core/auth/dependencies.py` lines 29-75): after the
decode and type checks, a token that carries a `jti` is checked against the
access-token revocation store; a revoked `jti` is rejected with
`token_revoked`, and a token without a `jti` skips the check. -/
def get_token_data (now : Int) (credentials : Option Jwt) (db : Db) :
    PyResult Starter.TokenData :=
  match credentials with
  | none => .appError .unauthorized "Missing authentication token" "missing_token"
  | some cred =>
    match Starter.decode_token now cred with
    | none => .appError .unauthorized "Invalid or expired token" "invalid_token"
    | some token_data =>
      if token_data.type ≠ "access" then
        .appError .unauthorized "Invalid token type" "invalid_token_type"
      else
        match token_data.jti with
        | some jti =>
          if RevokedTokenRepository.is_revoked db jti then
            .appError .unauthorized "Token has been revoked" "token_revoked"
          else
            .ok token_data
        | none => .ok token_data

/-- Model of `get_current_user` of the starter template
(`templates/starter/src/app/core/auth/dependencies.py` lines 78-112): the user
is loaded with the tenant-scoped `UserRepository.get_by_id`, passing both the
`user_id` and the `tenant_id` taken from the token; a missing user (including
one whose actual tenant differs from the token's `tenant_id`) yields
`user_not_found`, and an inactive user yields `user_inactive`. -/
def get_current_user (db : Db) (token_data : Starter.TokenData) : PyResult User :=
  match UserRepository.get_by_id db token_data.user_id token_data.tenant_id with
  | none => .appError .unauthorized "User not found" "user_not_found"
  | some user =>
    if user.is_active = false then
      .appError .forbidden "User account is deactivated" "user_inactive"
    else
      .ok user

end Starter

/-- Model of `TokenPair` (`src/app/core/auth/schemas.py` lines 25-38). -/
structure TokenPair where
  access_token : Jwt
  refresh_token : String
  token_type : String
  expires_in : Int
deriving DecidableEq

/-- The fresh random material consumed by one `AuthService._create_tokens`
call: the access token's `jti` (from `secrets.token_urlsafe`), the opaque
refresh token string (from `create_refresh_token`, also
`secrets.token_urlsafe`), and the database-assigned primary key of the new
refresh token row. -/
structure FreshSecrets where
  accessJti : String
  refreshToken : String
  recordId : Nat
deriving DecidableEq

namespace AuthService

/-- Model of `get_token_expiration` (backend.py lines 185-196) with the configured
default: now plus `refresh_token_expire_days` days, in seconds. -/
def get_token_expiration (now : Int) : Int :=
  now + settings_refresh_token_expire_days * 86400

/-- Model of `AuthService._create_tokens` (service.py lines 216-253): mint an access
token, mint an opaque refresh token, store the refresh token's SHA-256 hash
with its expiry, and return the pair. -/
def create_tokens (db : Db) (user : User) (now : Int) (fresh : FreshSecrets)
    (user_agent ip_address : Option String) : Db × TokenPair :=
  let access := create_access_token user.id user.tenant_id now none fresh.accessJti
  let record : RefreshRecord :=
    { id := fresh.recordId, user_id := user.id,
      token_hash := hash_token fresh.refreshToken,
      expires_at := get_token_expiration now, revoked := false,
      user_agent := user_agent, ip_address := ip_address }
  (RefreshTokenRepository.create db record,
   { access_token := access, refresh_token := fresh.refreshToken,
     token_type := "bearer",
     expires_in := settings_access_token_expire_minutes * 60 })

/-- Python truthiness of the stored `password_hash` column, as tested by
`if not user.password_hash or ...` (service.py line 122): `NULL` and the empty
string are falsy, every other string is truthy. -/
def hashTruthy (h : Option HashStr) : Bool :=
  match h with
  | none => false
  | some (.bcrypt _ _) => true
  | some (.malformed s) => s ≠ ""

/-- Model of `AuthService.login` (service.py lines 92-138): system-wide email lookup,
password verification, active check, then token issuance.  The lookup failure
and the password failure raise the same
`UnauthorizedError("Invalid email or password", error_code="invalid_credentials")`.
`verify_password` is called only when the stored hash is truthy, and its
exception (possible on a malformed stored hash) would propagate. -/
def login (db : Db) (email password : String) (now : Int) (fresh : FreshSecrets)
    (user_agent ip_address : Option String) : Db × PyResult (User × TokenPair) :=
  match UserRepository.get_by_email_system db email with
  | none =>
    (db, .appError .unauthorized "Invalid email or password" "invalid_credentials")
  | some user =>
    if hashTruthy user.password_hash = false then
      (db, .appError .unauthorized "Invalid email or password" "invalid_credentials")
    else
      match user.password_hash with
      | none =>
        (db, .appError .unauthorized "Invalid email or password" "invalid_credentials")
      | some stored =>
        match verify_password password stored with
        | .error e => (db, .exn e)
        | .ok false =>
          (db, .appError .unauthorized "Invalid email or password" "invalid_credentials")
        | .ok true =>
          if user.is_active = false then
            (db, .appError .unauthorized "Account is deactivated" "account_inactive")
          else
            let r := create_tokens db user now fresh user_agent ip_address
            (r.1, .ok (user, r.2))

/-- Model of `AuthService.refresh_tokens` (service.py lines 140-192): hash the incoming
token, look up the active (non-revoked) record, revoke-and-reject if expired,
reject (revoking) if the user is missing or inactive, then revoke the old
record and issue a new pair. -/
def refresh_tokens (db : Db) (refresh_token : String) (now : Int)
    (fresh : FreshSecrets) (user_agent ip_address : Option String) :
    Db × PyResult TokenPair :=
  let token_hash := hash_token refresh_token
  match RefreshTokenRepository.get_by_hash db token_hash with
  | none =>
    (db, .appError .unauthorized "Invalid refresh token" "invalid_refresh_token")
  | some stored_token =>
    if stored_token.expires_at < now then
      (RefreshTokenRepository.revoke db stored_token.id,
       .appError .unauthorized "Refresh token expired" "token_expired")
    else
      match UserRepository.get_by_id_system db stored_token.user_id with
      | none =>
        (RefreshTokenRepository.revoke db stored_token.id,
         .appError .unauthorized "User not found or inactive" "user_invalid")
      | some user =>
        if user.is_active = false then
          (RefreshTokenRepository.revoke db stored_token.id,
           .appError .unauthorized "User not found or inactive" "user_invalid")
        else
          let db1 := RefreshTokenRepository.revoke db stored_token.id
          let r := create_tokens db1 user now fresh user_agent ip_address
          (r.1, .ok r.2)

/-- Model of `AuthService.logout` (service.py lines 194-203): revoke the record for the
hash if one is active, otherwise do nothing. -/
def logout (db : Db) (refresh_token : String) : Db :=
  match RefreshTokenRepository.get_by_hash db (hash_token refresh_token) with
  | none => db
  | some stored_token => RefreshTokenRepository.revoke db stored_token.id

end AuthService

/-- Model of `Role.has_permission` (starter template `src/core/permissions/models.py`
lines 137-157): a permission grants `(resource, action)` if it matches
exactly, or its action is the wildcard, or its resource is the wildcard, or
both are wildcards. -/
def Role.has_permission (role : Role) (resource action : String) : Bool :=
  role.permissions.any fun p =>
    (p.resource = resource ∧ p.action = action)
    ∨ (p.resource = resource ∧ p.action = "*")
    ∨ (p.resource = "*" ∧ p.action = action)
    ∨ (p.resource = "*" ∧ p.action = "*")

namespace PermissionChecker

/-- Model of `PermissionChecker.get_user_roles` (checker.py lines 31-51): the roles
joined to the user through `user_roles`, restricted to the given tenant. -/
def get_user_roles (db : Db) (user_id tenant_id : Nat) : List Role :=
  db.roles.filter fun role =>
    (db.user_roles.any fun ur => ur.user_id = user_id ∧ ur.role_id = role.id)
    ∧ role.tenant_id = tenant_id

/-- Model of `PermissionChecker.has_permission` (checker.py lines 53-73): true if any
of the user's roles in the tenant grants the permission. -/
def has_permission (db : Db) (user_id tenant_id : Nat) (resource action : String) :
    Bool :=
  (get_user_roles db user_id tenant_id).any fun role =>
    role.has_permission resource action

end PermissionChecker

/-- The shared cache/KV store backing the OAuth state records: keys mapped to
JSON objects with string-valued fields (`RedisCache` with the
`oauth:state:` prefix; prefixing is a bijective renaming of keys and is
elided).  The short TTL makes expired entries behave exactly like absent ones,
so expiry is modelled as absence. -/
def RedisStore : Type := List (String × List (String × String))

/-- Field lookup inside a stored JSON object. -/
def jsonGet (obj : List (String × String)) (field : String) : Option String :=
  (obj.find? fun kv => kv.1 = field).map fun kv => kv.2

/-- Key lookup in the store. -/
def storeLookup (store : RedisStore) (key : String) :
    Option (List (String × String)) :=
  (List.find? (fun kv => kv.1 = key) store).map fun kv => kv.2

namespace RedisCache

/-- Model of `RedisCache.get_and_delete` (redis.py lines 150-160), the model of Redis
`GETDEL`: return the value stored at the key and remove the key, as one
storage-level step. -/
def get_and_delete (store : RedisStore) (key : String) :
    Option (List (String × String)) × RedisStore :=
  (storeLookup store key, List.filter (fun kv => kv.1 ≠ key) store)

/-- Model of `RedisCache.set_json` via `set` with a TTL (redis.py lines 106-177):
bind the key to the object (TTL elided, see `RedisStore`). -/
def set_json (store : RedisStore) (key : String) (value : List (String × String)) :
    RedisStore :=
  (key, value) :: List.filter (fun kv => kv.1 ≠ key) store

end RedisCache

/-- Model of `store_oauth_state` (oauth_state.py lines 31-48). -/
def store_oauth_state (store : RedisStore) (state provider redirect_uri : String) :
    RedisStore :=
  RedisCache.set_json store state
    [("provider", provider), ("redirect_uri", redirect_uri)]

/-- The `{provider, redirect_uri}` record returned by a successful state
consumption (`OAuthStateData`, oauth_state.py lines 20-24). -/
structure OAuthStateData where
  provider : String
  redirect_uri : String
deriving DecidableEq

/-- Model of `get_oauth_state` (oauth_state.py lines 51-90): read-and-delete the state
via `get_json_and_delete`, then validate that the stored object carries both
required fields; on a missing key or missing field the result is `None`
(the key is deleted in either case). -/
def get_oauth_state (store : RedisStore) (state : String) :
    Option OAuthStateData × RedisStore :=
  let r := RedisCache.get_and_delete store state
  match r.1 with
  | none => (none, r.2)
  | some data =>
    match jsonGet data "provider", jsonGet data "redirect_uri" with
    | some p, some u => (some { provider := p, redirect_uri := u }, r.2)
    | _, _ => (none, r.2)

/-- Helper for `generate_slug`: the semantics of
`re.sub(r"[-\s]+", "-", slug)` — every maximal run of whitespace and hyphens
is replaced by a single hyphen. -/
def collapseSep : List Char → List Char
  | [] => []
  | c :: rest =>
    if c.isWhitespace ∨ c = '-' then
      '-' :: collapseSep (rest.dropWhile fun d => d.isWhitespace ∨ d = '-')
    else
      c :: collapseSep rest
termination_by l => l.length
decreasing_by
  all_goals simp only [List.length_cons]
  · exact Nat.lt_succ_of_le (List.IsSuffix.length_le (List.dropWhile_suffix _))
  · exact Nat.lt_succ_self _

/-- Model of `generate_slug` (`src/app/core/utils/text.py`): lowercase and
strip the name, drop every character outside `\w`, `\s` and `-` (ASCII
approximation of the regex character classes), collapse separator runs to a
single hyphen, truncate to `MAX_SLUG_LENGTH = 63`. -/
def generate_slug (name : String) : String :=
  let lowered := name.toLower.trim
  let kept := lowered.data.filter fun c =>
    c.isAlphanum ∨ c = '_' ∨ c.isWhitespace ∨ c = '-'
  (String.mk (collapseSep kept)).take 63

/-- The user info fetched from the OAuth provider
(`OAuthUserInfo`, `src/app/core/auth/oauth.py`). -/
structure OAuthUserInfo where
  provider_id : String
  email : String
  name : String
deriving DecidableEq

/-- Model of `_find_or_create_user` (oauth_routes.py lines 152-220): resolve a
local user for an OAuth callback.  Priority: (1) match by
`(oauth_provider, oauth_id)` system-wide and return that user unchanged;
(2) otherwise match by email system-wide and link the OAuth identity to that
user; (3) otherwise create a new tenant (named after the person) and a new
superuser user carrying the OAuth identity.  `freshTenantId` and
`freshUserId` are the database-assigned primary keys of the new rows. -/
def find_or_create_user (db : Db) (user_info : OAuthUserInfo) (provider : String)
    (freshTenantId freshUserId : Nat) : Db × User :=
  match UserRepository.get_by_oauth_system db provider user_info.provider_id with
  | some user => (db, user)
  | none =>
    match UserRepository.get_by_email_system db user_info.email with
    | some user =>
      let linked : User :=
        { user with oauth_provider := some provider,
                    oauth_id := some user_info.provider_id }
      ({ db with users := db.users.map fun u =>
           if u.id = user.id then
             { u with oauth_provider := some provider,
                      oauth_id := some user_info.provider_id }
           else u },
       linked)
    | none =>
      let tenant : Tenant :=
        { id := freshTenantId, name := user_info.name ++ "\x27s Workspace",
          slug := generate_slug user_info.name }
      let user : User :=
        { id := freshUserId, tenant_id := freshTenantId,
          email := user_info.email, password_hash := none,
          full_name := user_info.name, is_active := true, is_superuser := true,
          oauth_provider := some provider,
          oauth_id := some user_info.provider_id }
      ({ db with tenants := db.tenants ++ [tenant],
                 users := db.users ++ [user] },
       user)

theorem hash_token_injective : Function.Injective hash_token := by
  intro a b h
  have hd := congrArg String.data h
  simp only [hash_token, String.data_append] at hd
  have hab : a.data = b.data := List.append_cancel_left hd
  exact congrArg String.mk hab

theorem decode_token_signed (u t : Nat) (e now : Int) (ty : Option String)
    (ia : Option Int) (jt : Option String) (hexp : ¬ e < now) :
    decode_token now (.signed
      { sub := some (uuidStr u), tenant_id := some (uuidStr t), exp := some e,
        type := ty, iat := ia, jti := jt })
      = some { user_id := u, tenant_id := t, exp := e, type := ty.getD "access" } := by
  simp [decode_token, decode_token_py, decode_token_body, jose_decode, hexp,
        uuidParse_uuidStr, uuidStr_ne_empty]

/-- C1: in the request authentication chain of the development tree the user is
NOT loaded by the token's `(user_id, tenant_id)` pair: `get_current_user`
passes only `user_id` to the two-parameter tenant-scoped
`UserRepository.get_by_id`, so the call raises `TypeError` (an HTTP 500) for
every token instead of performing the tenant-scoped lookup that fails closed
with `user_not_found`.  At a concrete state with user 1 in tenant 10 and a
token claiming tenant 20, the repository lookup itself does fail closed, but
the chain never reaches it. -/
theorem C1_main_get_current_user_raises_type_error :
    UserRepository.get_by_id
      { users := [{ id := 1, tenant_id := 10, email := "a@x.com",
                    password_hash := none, full_name := "A", is_active := true,
                    is_superuser := false, oauth_provider := none, oauth_id := none }],
        tenants := [], refresh_tokens := [], revoked_jtis := [],
        roles := [], user_roles := [] } 1 20 = none
    ∧ get_current_user
      { users := [{ id := 1, tenant_id := 10, email := "a@x.com",
                    password_hash := none, full_name := "A", is_active := true,
                    is_superuser := false, oauth_provider := none, oauth_id := none }],
        tenants := [], refresh_tokens := [], revoked_jtis := [],
        roles := [], user_roles := [] }
      { user_id := 1, tenant_id := 20, exp := 1000, type := "access" }
      = PyResult.exn PyExn.typeError := by
  exact ⟨by decide, rfl⟩

/-- C2: the development tree's `get_token_data` performs no revocation check:
a validly signed, unexpired access token whose `jti` is present in the
revocation store is accepted (`PyResult.ok`), not rejected with
`token_revoked`.  The function does not even receive a database session, so
no state could change the outcome. -/
theorem C2_main_get_token_data_skips_revocation :
    RevokedTokenRepository.is_revoked
      { users := [], tenants := [], refresh_tokens := [], revoked_jtis := ["j1"],
        roles := [], user_roles := [] } "j1" = true
    ∧ get_token_data 0
      (some (Jwt.signed
        { sub := some (uuidStr 1), tenant_id := some (uuidStr 2), exp := some 900,
          type := some "access", iat := some 0, jti := some "j1" }))
      = PyResult.ok { user_id := 1, tenant_id := 2, exp := 900, type := "access" } := by
  exact ⟨by decide, by decide⟩

/-- C3: decoding a freshly created access token returns the creating call's
`user_id`, `tenant_id` and type `access`, but the decoded `TokenData` does NOT
carry the embedded `jti`: the schema has no `jti` field, so two tokens created
identically except for their `jti` values decode to equal `TokenData`. -/
theorem C3_decode_of_create_drops_jti :
    decode_token 0 (create_access_token 1 2 0 none "jtiA")
      = some { user_id := 1, tenant_id := 2, exp := 900, type := "access" }
    ∧ create_access_token 1 2 0 none "jtiA" ≠ create_access_token 1 2 0 none "jtiB"
    ∧ decode_token 0 (create_access_token 1 2 0 none "jtiA")
      = decode_token 0 (create_access_token 1 2 0 none "jtiB") := by
  exact ⟨by decide, by decide, by decide⟩

/-- C4 counterexample: `verify_password` does not return `false` on a
malformed hash — it has no exception handling, so passlib's
`UnknownHashError` (a `ValueError`) propagates to the caller. -/
theorem C4_verify_password_raises_on_malformed_hash :
    verify_password "secret" (HashStr.malformed "not-a-bcrypt-hash")
      = Except.error PyExn.valueError := rfl

/-- C4 (amended): `decode_token` is total — for every input (and every clock)
its body only raises exceptions that the `except (JWTError, ValueError)`
handler catches, so the caller always receives `TokenData` or `None`;
`verify_password` returns a boolean on every well-formed bcrypt hash, but on a
malformed hash it raises (propagates passlib's `UnknownHashError`) instead of
returning `false`. -/
theorem C4_codec_totality_amended :
    (∀ (now : Int) (token : Jwt),
        decode_token_py now token = Except.ok (decode_token now token))
    ∧ (∀ (plain pw : String) (salt : Nat),
        verify_password plain (HashStr.bcrypt pw salt) = Except.ok (decide (plain = pw)))
    ∧ (∀ (plain s : String),
        verify_password plain (HashStr.malformed s) = Except.error PyExn.valueError) := by
  refine ⟨decode_token_py_total, ?_, ?_⟩
  · intro plain pw salt
    rfl
  · intro plain s
    rfl

/-- C10: a validly signed, unexpired token whose payload carries `sub`,
`tenant_id` and `exp` but no `type` claim decodes to `TokenData` with `type`
defaulted to `access` (via `payload.get("type", "access")`), and the request
authentication chain's type check therefore accepts it as an access token. -/
theorem C10_missing_type_claim_defaults_to_access (u t : Nat) (e now : Int)
    (ia : Option Int) (jt : Option String) (hexp : ¬ e < now) :
    decode_token now (.signed
      { sub := some (uuidStr u), tenant_id := some (uuidStr t), exp := some e,
        type := none, iat := ia, jti := jt })
      = some { user_id := u, tenant_id := t, exp := e, type := "access" }
    ∧ get_token_data now (some (.signed
      { sub := some (uuidStr u), tenant_id := some (uuidStr t), exp := some e,
        type := none, iat := ia, jti := jt }))
      = PyResult.ok { user_id := u, tenant_id := t, exp := e, type := "access" } := by
  have hd := decode_token_signed u t e now none ia jt hexp
  refine ⟨hd, ?_⟩
  simp [get_token_data, hd]

/-- Witness for C10 at user 1, tenant 2, expiry 100, clock 0. -/
theorem C10_witness :
    get_token_data 0 (some (.signed
      { sub := some (uuidStr 1), tenant_id := some (uuidStr 2), exp := some 100,
        type := none, iat := none, jti := none }))
      = PyResult.ok { user_id := 1, tenant_id := 2, exp := 100, type := "access" } :=
  (C10_missing_type_claim_defaults_to_access 1 2 100 0 none none (by decide)).2

theorem refresh_tokens_not_found (db1 : Db) (tok : String) (now : Int)
    (f : FreshSecrets) (ua ip : Option String)
    (h : RefreshTokenRepository.get_by_hash db1 (hash_token tok) = none) :
    (AuthService.refresh_tokens db1 tok now f ua ip).2
      = PyResult.appError .unauthorized "Invalid refresh token" "invalid_refresh_token" := by
  simp [AuthService.refresh_tokens, h]

/-- C5: refresh rotation is one-time-use.  If `refresh_tokens` succeeds for a
token, then in the post-state every stored record whose hash is the token's
hash is revoked, and a second sequential `refresh_tokens` call with the same
token fails with `invalid_refresh_token`.  Hypotheses: the stored hashes are
pairwise distinct (the `token_hash` column carries a unique constraint), and
the freshly generated replacement token differs from the incoming one (it is
drawn from `secrets.token_urlsafe`). -/
theorem C5_refresh_rotation_one_time_use (db : Db) (tok : String) (now now2 : Int)
    (f f2 : FreshSecrets) (ua ip ua2 ip2 : Option String)
    (huniq : db.refresh_tokens.Pairwise fun a b => a.token_hash ≠ b.token_hash)
    (hfresh : f.refreshToken ≠ tok)
    (hsucc : ∃ p, (AuthService.refresh_tokens db tok now f ua ip).2 = PyResult.ok p) :
    (∀ r ∈ (AuthService.refresh_tokens db tok now f ua ip).1.refresh_tokens,
        r.token_hash = hash_token tok → r.revoked = true)
    ∧ (AuthService.refresh_tokens
        (AuthService.refresh_tokens db tok now f ua ip).1 tok now2 f2 ua2 ip2).2
      = PyResult.appError .unauthorized "Invalid refresh token" "invalid_refresh_token" := by
  obtain ⟨p, hp⟩ := hsucc
  cases hfind : RefreshTokenRepository.get_by_hash db (hash_token tok) with
  | none => simp [AuthService.refresh_tokens, hfind] at hp
  | some rec =>
    have hrecmem : rec ∈ db.refresh_tokens := List.mem_of_find?_eq_some hfind
    have hrecp := List.find?_some hfind
    simp at hrecp
    obtain ⟨hrech, hrecrev⟩ := hrecp
    by_cases hexp : rec.expires_at < now
    · simp [AuthService.refresh_tokens, hfind, hexp] at hp
    · cases huser : UserRepository.get_by_id_system db rec.user_id with
      | none => simp [AuthService.refresh_tokens, hfind, hexp, huser] at hp
      | some user =>
        by_cases hact : user.is_active = false
        · simp [AuthService.refresh_tokens, hfind, hexp, huser, hact] at hp
        · have hpost : (AuthService.refresh_tokens db tok now f ua ip).1.refresh_tokens
              = (db.refresh_tokens.map fun r =>
                  if r.id = rec.id then { r with revoked := true } else r)
                ++ [{ id := f.recordId, user_id := user.id,
                      token_hash := hash_token f.refreshToken,
                      expires_at := AuthService.get_token_expiration now,
                      revoked := false, user_agent := ua, ip_address := ip }] := by
            simp [AuthService.refresh_tokens, hfind, hexp, huser, hact,
                  AuthService.create_tokens, RefreshTokenRepository.create,
                  RefreshTokenRepository.revoke]
          have hA : ∀ r ∈ (AuthService.refresh_tokens db tok now f ua ip).1.refresh_tokens,
              r.token_hash = hash_token tok → r.revoked = true := by
            intro r hr hrh
            rw [hpost] at hr
            rcases List.mem_append.mp hr with hr1 | hr2
            · obtain ⟨orig, horigmem, horigeq⟩ := List.mem_map.mp hr1
              by_cases hid : orig.id = rec.id
              · rw [if_pos hid] at horigeq
                rw [← horigeq]
              · rw [if_neg hid] at horigeq
                exfalso
                rw [← horigeq] at hrh
                have hsymm : Symmetric fun a b : RefreshRecord => a.token_hash ≠ b.token_hash :=
                  fun a b hab hba => hab hba.symm
                have horigrec : orig = rec := by
                  by_contra hne
                  exact (huniq.forall hsymm) horigmem hrecmem hne (hrh.trans hrech.symm)
                exact hid (horigrec ▸ rfl)
            · simp only [List.mem_singleton] at hr2
              subst hr2
              exact absurd (hash_token_injective hrh) hfresh
          refine ⟨hA, ?_⟩
          have hnone : RefreshTokenRepository.get_by_hash
              (AuthService.refresh_tokens db tok now f ua ip).1 (hash_token tok) = none := by
            unfold RefreshTokenRepository.get_by_hash
            rw [List.find?_eq_none]
            intro x hx
            simp only [decide_eq_true_eq, not_and]
            intro hxh
            rw [hA x hx hxh]
            simp
          exact refresh_tokens_not_found _ tok now2 f2 ua2 ip2 hnone

/-- A store with a single active refresh record for the hash of token `t1`,
used by the C5 witness. -/
def sampleDbC5 : Db :=
  { users := [{ id := 1, tenant_id := 10, email := "a@x.com",
                password_hash := none, full_name := "A", is_active := true,
                is_superuser := false, oauth_provider := none, oauth_id := none }],
    tenants := [],
    refresh_tokens := [{ id := 1, user_id := 1, token_hash := hash_token "t1",
                         expires_at := 100, revoked := false, user_agent := none,
                         ip_address := none }],
    revoked_jtis := [], roles := [], user_roles := [] }

/-- Fresh material for the first refresh call of the C5 witness. -/
def sampleFresh1 : FreshSecrets :=
  { accessJti := "j", refreshToken := "t2", recordId := 2 }

/-- Fresh material for the second refresh call of the C5 witness. -/
def sampleFresh2 : FreshSecrets :=
  { accessJti := "j3", refreshToken := "t4", recordId := 3 }

/-- Witness for C5: after a successful refresh of `t1` at time 0, a second
refresh of `t1` fails with `invalid_refresh_token`. -/
theorem C5_witness :
    (AuthService.refresh_tokens
      (AuthService.refresh_tokens sampleDbC5 "t1" 0 sampleFresh1 none none).1
      "t1" 0 sampleFresh2 none none).2
    = PyResult.appError .unauthorized "Invalid refresh token" "invalid_refresh_token" :=
  (C5_refresh_rotation_one_time_use sampleDbC5 "t1" 0 0 sampleFresh1 sampleFresh2
    none none none none (by simp [sampleDbC5]) (by decide) ⟨_, rfl⟩).2

theorem get_oauth_state_snd (store : RedisStore) (s : String) :
    (get_oauth_state store s).2 = List.filter (fun kv => kv.1 ≠ s) store := by
  unfold get_oauth_state RedisCache.get_and_delete
  cases h : storeLookup store s with
  | none => simp [h]
  | some data =>
    cases hp : jsonGet data "provider" <;> cases hq : jsonGet data "redirect_uri" <;>
      simp [h, hp, hq]

theorem get_oauth_state_fst_none (store : RedisStore) (s : String)
    (h : storeLookup store s = none) : (get_oauth_state store s).1 = none := by
  unfold get_oauth_state RedisCache.get_and_delete
  simp [h]

theorem storeLookup_filter_self (store : RedisStore) (s : String) :
    storeLookup (List.filter (fun kv => kv.1 ≠ s) store) s = none := by
  have hf : List.find? (fun kv => kv.1 = s)
      (List.filter (fun kv => kv.1 ≠ s) store) = none := by
    rw [List.find?_eq_none]
    intro x hx
    have hne := (List.mem_filter.mp hx).2
    simp at hne ⊢
    exact hne
  simp [storeLookup, hf]

/-- C6: OAuth CSRF state is single-use.  Consuming a state deletes its key
from the store, so a second consume of the same state returns `none`; and
when the state is present with a well-formed record, the first consume
returns exactly the stored `{provider, redirect_uri}` value (the
read-and-delete is a single storage step, Redis `GETDEL`, so of two consumes
exactly one can return it). -/
theorem C6_oauth_state_single_use (store : RedisStore) (s : String) :
    storeLookup (get_oauth_state store s).2 s = none
    ∧ (get_oauth_state (get_oauth_state store s).2 s).1 = none
    ∧ (∀ obj p r, storeLookup store s = some obj →
        jsonGet obj "provider" = some p → jsonGet obj "redirect_uri" = some r →
        (get_oauth_state store s).1 = some { provider := p, redirect_uri := r }) := by
  have h2 := get_oauth_state_snd store s
  have h1 : storeLookup (get_oauth_state store s).2 s = none := by
    rw [h2]
    exact storeLookup_filter_self store s
  refine ⟨h1, get_oauth_state_fst_none _ s h1, ?_⟩
  · intro obj p r ho hp hr
    unfold get_oauth_state RedisCache.get_and_delete
    simp [ho, hp, hr]

/-- Witness for C6: a store holding one well-formed state record; the first
consume returns it. -/
theorem C6_witness :
    (get_oauth_state
      [("s1", [("provider", "google"), ("redirect_uri", "https://app/cb")])] "s1").1
      = some { provider := "google", redirect_uri := "https://app/cb" } :=
  (C6_oauth_state_single_use _ "s1").2.2 _ "google" "https://app/cb" rfl rfl rfl

/-- C7: `has_permission` returns true exactly when some role assigned to the
user in the tenant holds a permission equal to `(r, a)`, `(r, *)`, `(*, a)` or
`(*, *)` — both wildcard positions match independently. -/
theorem C7_has_permission_iff (db : Db) (u t : Nat) (res act : String) :
    PermissionChecker.has_permission db u t res act = true ↔
      ∃ role ∈ db.roles,
        (∃ ur ∈ db.user_roles, ur.user_id = u ∧ ur.role_id = role.id)
        ∧ role.tenant_id = t
        ∧ ∃ p ∈ role.permissions,
            (p.resource = res ∧ p.action = act) ∨ (p.resource = res ∧ p.action = "*")
            ∨ (p.resource = "*" ∧ p.action = act) ∨ (p.resource = "*" ∧ p.action = "*") := by
  unfold PermissionChecker.has_permission PermissionChecker.get_user_roles
    Role.has_permission
  rw [List.any_eq_true]
  constructor
  · rintro ⟨role, hrole, hperm⟩
    rw [List.mem_filter] at hrole
    obtain ⟨hmem, hcond⟩ := hrole
    simp only [decide_eq_true_eq, List.any_eq_true] at hcond hperm
    obtain ⟨⟨ur, hur, hu, hr⟩, ht⟩ := hcond
    obtain ⟨p, hp, hmatch⟩ := hperm
    exact ⟨role, hmem, ⟨ur, hur, hu, hr⟩, ht, p, hp, hmatch⟩
  · rintro ⟨role, hmem, ⟨ur, hur, hu, hr⟩, ht, p, hp, hmatch⟩
    refine ⟨role, ?_, ?_⟩
    · rw [List.mem_filter]
      refine ⟨hmem, ?_⟩
      simp only [decide_eq_true_eq, List.any_eq_true]
      exact ⟨⟨ur, hur, hu, hr⟩, ht⟩
    · simp only [decide_eq_true_eq, List.any_eq_true]
      exact ⟨p, hp, hmatch⟩

/-- C8: login failure is indistinguishable between a nonexistent account and a
wrong password: both runs produce the same
`UnauthorizedError("Invalid email or password", "invalid_credentials")`.
The second account's stored hash is absent or a well-formed bcrypt hash of a
password other than the attempted one (every hash the system itself stores is
of this shape). -/
theorem C8_login_failure_indistinguishable (db : Db) (e1 e2 p1 p2 : String)
    (u : User) (now : Int) (f : FreshSecrets) (ua ip : Option String)
    (h1 : UserRepository.get_by_email_system db e1 = none)
    (h2 : UserRepository.get_by_email_system db e2 = some u)
    (hw : u.password_hash = none
        ∨ ∃ pw salt, u.password_hash = some (HashStr.bcrypt pw salt) ∧ pw ≠ p2) :
    (AuthService.login db e1 p1 now f ua ip).2
      = PyResult.appError .unauthorized "Invalid email or password" "invalid_credentials"
    ∧ (AuthService.login db e2 p2 now f ua ip).2
      = PyResult.appError .unauthorized "Invalid email or password" "invalid_credentials" := by
  constructor
  · simp [AuthService.login, h1]
  · rcases hw with hnone | ⟨pw, salt, hh, hne⟩
    · simp [AuthService.login, h2, hnone, AuthService.hashTruthy]
    · simp [AuthService.login, h2, hh, AuthService.hashTruthy, verify_password,
            pwd_context_verify, Ne.symm hne]

/-- Witness for C8: no user has email `ghost@x.com`; the user with email
`b@x.com` stores a bcrypt hash of `correct`, attempted with `wrong`. -/
theorem C8_witness :
    (AuthService.login
      { users := [{ id := 2, tenant_id := 20, email := "b@x.com",
                    password_hash := some (HashStr.bcrypt "correct" 0),
                    full_name := "B", is_active := true, is_superuser := false,
                    oauth_provider := none, oauth_id := none }],
        tenants := [], refresh_tokens := [], revoked_jtis := [],
        roles := [], user_roles := [] }
      "ghost@x.com" "pw1" 0 { accessJti := "j", refreshToken := "t", recordId := 1 }
      none none).2
      = PyResult.appError .unauthorized "Invalid email or password" "invalid_credentials"
    ∧ (AuthService.login
      { users := [{ id := 2, tenant_id := 20, email := "b@x.com",
                    password_hash := some (HashStr.bcrypt "correct" 0),
                    full_name := "B", is_active := true, is_superuser := false,
                    oauth_provider := none, oauth_id := none }],
        tenants := [], refresh_tokens := [], revoked_jtis := [],
        roles := [], user_roles := [] }
      "b@x.com" "wrong" 0 { accessJti := "j", refreshToken := "t", recordId := 1 }
      none none).2
      = PyResult.appError .unauthorized "Invalid email or password" "invalid_credentials" :=
  C8_login_failure_indistinguishable _ "ghost@x.com" "b@x.com" "pw1" "wrong" _ 0 _
    none none rfl rfl (Or.inr ⟨"correct", 0, rfl, by decide⟩)

/-- C9: OAuth callback user resolution follows exactly the priority
oauth-identity, then email (linking the identity), then creation of a new
tenant and superuser user carrying the identity. -/
theorem C9_oauth_resolution_priority (db : Db) (info : OAuthUserInfo)
    (provider : String) (ftid fuid : Nat) :
    (∀ u, UserRepository.get_by_oauth_system db provider info.provider_id = some u →
        find_or_create_user db info provider ftid fuid = (db, u))
    ∧ (UserRepository.get_by_oauth_system db provider info.provider_id = none →
        ∀ u, UserRepository.get_by_email_system db info.email = some u →
          (find_or_create_user db info provider ftid fuid).2
            = { u with oauth_provider := some provider,
                       oauth_id := some info.provider_id })
    ∧ (UserRepository.get_by_oauth_system db provider info.provider_id = none →
        UserRepository.get_by_email_system db info.email = none →
          (find_or_create_user db info provider ftid fuid).2
            = { id := fuid, tenant_id := ftid, email := info.email,
                password_hash := none, full_name := info.name, is_active := true,
                is_superuser := true, oauth_provider := some provider,
                oauth_id := some info.provider_id }
          ∧ (find_or_create_user db info provider ftid fuid).1.tenants
            = db.tenants ++ [{ id := ftid, name := info.name ++ "\x27s Workspace",
                               slug := generate_slug info.name }]) := by
  refine ⟨?_, ?_, ?_⟩
  · intro u hu
    simp [find_or_create_user, hu]
  · intro h0 u hu
    simp [find_or_create_user, h0, hu]
  · intro h0 h1
    simp [find_or_create_user, h0, h1]

/-- OAuth user info used by the C9 witness. -/
def sampleInfoC9 : OAuthUserInfo :=
  { provider_id := "pid9", email := "c@x.com", name := "C" }

/-- A store whose only user already carries the matching OAuth identity. -/
def sampleDbOauth : Db :=
  { users := [{ id := 3, tenant_id := 30, email := "c@x.com",
                password_hash := none, full_name := "C", is_active := true,
                is_superuser := false, oauth_provider := some "google",
                oauth_id := some "pid9" }],
    tenants := [], refresh_tokens := [], revoked_jtis := [],
    roles := [], user_roles := [] }

/-- A store whose only user matches by email but has no OAuth identity. -/
def sampleDbEmail : Db :=
  { users := [{ id := 4, tenant_id := 40, email := "c@x.com",
                password_hash := none, full_name := "C", is_active := true,
                is_superuser := false, oauth_provider := none,
                oauth_id := none }],
    tenants := [], refresh_tokens := [], revoked_jtis := [],
    roles := [], user_roles := [] }

/-- An empty store. -/
def sampleDbEmpty : Db :=
  { users := [], tenants := [], refresh_tokens := [], revoked_jtis := [],
    roles := [], user_roles := [] }

/-- Witness for C9: the three branches at concrete states — a user carrying
the matching OAuth identity is returned as-is; with only an email match the
identity is linked; with neither, a fresh superuser is created. -/
theorem C9_witness :
    find_or_create_user sampleDbOauth sampleInfoC9 "google" 7 8
      = (sampleDbOauth,
         { id := 3, tenant_id := 30, email := "c@x.com", password_hash := none,
           full_name := "C", is_active := true, is_superuser := false,
           oauth_provider := some "google", oauth_id := some "pid9" })
    ∧ (find_or_create_user sampleDbEmail sampleInfoC9 "google" 7 8).2
      = { id := 4, tenant_id := 40, email := "c@x.com", password_hash := none,
          full_name := "C", is_active := true, is_superuser := false,
          oauth_provider := some "google", oauth_id := some "pid9" }
    ∧ (find_or_create_user sampleDbEmpty sampleInfoC9 "google" 7 8).2
      = { id := 8, tenant_id := 7, email := "c@x.com", password_hash := none,
          full_name := "C", is_active := true, is_superuser := true,
          oauth_provider := some "google", oauth_id := some "pid9" } :=
  ⟨(C9_oauth_resolution_priority sampleDbOauth sampleInfoC9 "google" 7 8).1 _ rfl,
   (C9_oauth_resolution_priority sampleDbEmail sampleInfoC9 "google" 7 8).2.1 rfl _ rfl,
   ((C9_oauth_resolution_priority sampleDbEmpty sampleInfoC9 "google" 7 8).2.2 rfl rfl).1⟩
